import Mathlib

/-!
# Verification of the knext session core (`src/unnamed/part_000`)

Shallow embedding of the session reconciliation and token codec core:
* the `jwt.encode` / `jwt.decode` pair built on `jsonwebtoken`,
* the `session` callback (session materialization / merge),
* the `signIn` callback (sign-in gate / identity reconciliation).

JavaScript objects are embedded as association sequences with JS
object-literal semantics: a later binding for a key overrides an earlier
one, which models both the spread operator (`{...a, ...b}` is `a ++ b`)
and literal field overrides (`{...a, k: v}` is `a ++ [(k, v)]`).

The user store (`getUser` / `createUser`, imported from the `./actions`
module, which is not among the sources) is modelled from the spec's
collaborator contract (§6) and error model (§7), with explicit failure
injection flags so that the error-handling claims can be stated.  The
`jsonwebtoken` library is modelled at the interface level the code relies
on: `sign` produces a token carrying its payload and a MAC over the
payload and the secret, `verify` checks the MAC and then the numeric
`exp` claim strictly against the supplied clock, and performs no issuer
check.
-/

namespace Knext

mutual

/-- JSON-like values carried in session objects, claims and profiles.
`undefined` models a key bound to the JavaScript `undefined` value. -/
inductive Value where
  | str (s : String)
  | num (n : Int)
  | bool (b : Bool)
  | undefined
  | obj (o : Obj)
  deriving DecidableEq

/-- An embedded JavaScript object: a sequence of key/value bindings in
evaluation order.  A later binding for a key overrides an earlier one. -/
inductive Obj where
  | nil
  | cons (k : String) (v : Value) (rest : Obj)
  deriving DecidableEq

end

/-- Concatenation of binding sequences; `{...a, ...b}` is `a ++ b`. -/
def Obj.append : Obj → Obj → Obj
  | .nil, b => b
  | .cons k v rest, b => .cons k v (Obj.append rest b)

instance : Append Obj := ⟨Obj.append⟩

/-- Build an embedded object from a list of bindings. -/
def Obj.ofList : List (String × Value) → Obj
  | [] => .nil
  | (k, v) :: rest => .cons k v (Obj.ofList rest)

/-- Property lookup on an embedded JS object: the value of the LAST
binding for the key, reflecting that later entries override earlier
ones. -/
def getField : Obj → String → Option Value
  | .nil, _ => none
  | .cons k' v rest, k =>
    match getField rest k with
    | some v' => some v'
    | none => if k' = k then some v else none

/-- `{...o, k: v}`: spread an object, then set one field. -/
def setField (o : Obj) (k : String) (v : Value) : Obj :=
  o ++ .cons k v .nil

/-! ## Token codec (`authOptions.jwt`, source lines 29–46)

`jsonwebtoken` is modelled with an idealized MAC: the signature of a
token is the payload/secret pair itself, so verification with a secret
succeeds exactly when the token was signed with that secret and was not
tampered with. -/

/-- A token string.  `signed` is a structurally well-formed signed token
(payload plus MAC); `malformed` is any structurally broken (e.g.
truncated) token string. -/
inductive Token where
  | signed (payload : Obj) (mac : Obj × String)
  | malformed (raw : String)
  deriving DecidableEq

/-- `jsonwebtoken.sign(payload, secret)`. -/
def jwtSign (payload : Obj) (secret : String) : Token :=
  .signed payload (payload, secret)

/-- The distinct failure modes of `jsonwebtoken.verify`; the spec's
`InvalidToken` error kind covers all of them. -/
inductive VerifyError where
  | invalidSignature
  | tokenExpired
  | invalidExpClaim
  | malformedToken
  deriving DecidableEq

/-- `jsonwebtoken.verify(token, secret)` at clock time `now` (epoch
seconds): checks the signature, then — when a numeric `exp` claim is
present — rejects the token unless `now < exp` (strict comparison).
No issuer or audience check is performed. -/
def jwtVerify (token : Token) (secret : String) (now : Int) :
    Except VerifyError Obj :=
  match token with
  | .malformed _ => .error .malformedToken
  | .signed payload mac =>
    if mac = (payload, secret) then
      match getField payload "exp" with
      | none => .ok payload
      | some (.num e) => if now < e then .ok payload else .error .tokenExpired
      | some _ => .error .invalidExpClaim
    else .error .invalidSignature

/-- The fixed session TTL: `60 * 60` seconds (source line 35). -/
def sessionTTL : Int := 60 * 60

/-- The claims object the codec signs (source lines 32–36):
`{ ...token, iss: "grafbase", exp: now + 60 * 60 }`, where `now` is
`Math.floor(Date.now() / 1000)` at encode time. -/
def encodePayload (token : Obj) (now : Int) : Obj :=
  setField (setField token "iss" (.str "grafbase")) "exp" (.num (now + sessionTTL))

/-- `authOptions.jwt.encode` (source lines 30–41): sign the claims with
the issuer and expiry injected over any caller-supplied values. -/
def encode (secret : String) (token : Obj) (now : Int) : Token :=
  jwtSign (encodePayload token now) secret

/-- `authOptions.jwt.decode` (source lines 42–45): just
`jsonwebtoken.verify(token, secret)`. -/
def decode (secret : String) (token : Token) (now : Int) :
    Except VerifyError Obj :=
  jwtVerify token secret now

/-- `true` exactly when decoding failed; every failure of
`jsonwebtoken.verify` is the spec's `InvalidToken` error. -/
def isInvalidToken : Except VerifyError Obj → Bool
  | .error _ => true
  | .ok _ => false

/-! ## The user store (`getUser` / `createUser` from `./actions`)

Modelled from the spec: the `./actions` module is not among the sources.
§6 gives the collaborator contract `lookupByEmail(email: string) ->
Option<InternalProfile>` and `createUser(displayName, email, avatarRef)
-> InternalProfile`; §7 gives the error kinds `StoreUnavailable`
(lookup/create call fails) and `MalformedIdentity` (missing required
email on the assertion, raised from the store calls of §4.4 steps 1–2).
Failure injection flags on the store state model the fallible I/O. -/

/-- Store-side error kinds (§7). -/
inductive StoreError where
  | storeUnavailable
  | malformedIdentity
  deriving DecidableEq

/-- The external user store plus failure-injection flags for its two
fallible calls. -/
structure Store where
  profiles : List Obj
  lookupFails : Bool
  createFails : Bool
  deriving DecidableEq

/-- Does this profile carry exactly this email? -/
def profileEmailIs (p : Obj) (email : String) : Bool :=
  match getField p "email" with
  | some (.str e) => e == email
  | _ => false

/-- `lookupByEmail` (§6): the first stored profile with that email. -/
def lookupByEmail (profiles : List Obj) (email : String) : Option Obj :=
  profiles.find? (fun p => profileEmailIs p email)

/-- Modelled from the spec: `getUser` from the absent `./actions` module.
Raises `StoreUnavailable` when the store call fails, raises
`MalformedIdentity` when the required email is absent (§7), and otherwise
returns the optional profile found by email (the `data?.user` /
`userExists.user` field of the callbacks). -/
def getUser (store : Store) (email : Option String) :
    Except StoreError (Option Obj) :=
  if store.lookupFails then .error .storeUnavailable
  else
    match email with
    | none => .error .malformedIdentity
    | some e => .ok (lookupByEmail store.profiles e)

/-- Embed an optional string attribute as a field value. -/
def Value.ofOption : Option String → Value
  | some s => .str s
  | none => .undefined

/-- The profile record created from the identity attributes passed by the
`signIn` callback (`user.name`, `user.email`, `user.image`). -/
def mkProfile (name email image : Option String) : Obj :=
  .cons "name" (Value.ofOption name)
    (.cons "email" (Value.ofOption email)
      (.cons "avatarUrl" (Value.ofOption image) .nil))

/-- Modelled from the spec: `createUser` from the absent `./actions`
module.  Raises `StoreUnavailable` when the create call fails — leaving
the store unchanged (§4.4: "if create fails, no InternalProfile exists")
— and otherwise appends the new profile and returns it. -/
def createUser (store : Store) (name email image : Option String) :
    Except StoreError (Obj × Store) :=
  if store.createFails then .error .storeUnavailable
  else
    let p := mkProfile name email image
    .ok (p, { store with profiles := store.profiles ++ [p] })

/-! ## The framework callbacks (`authOptions.callbacks`) -/

/-- A store call observed during a callback run, for stating which
lookups and creates a callback performs. -/
inductive StoreCall where
  | lookup (email : Option String)
  | create (name email image : Option String)
  deriving DecidableEq

/-- The `user` object handed to the `signIn` callback by the provider:
the three attributes the callback reads (`name`, `email`, `image`),
each possibly absent. -/
structure ExternalIdentity where
  name : Option String
  email : Option String
  image : Option String
  deriving DecidableEq

/-- `session?.user` as an object: the fields of the `user` property when
it is an object, and nothing otherwise (spreading a missing `user`
contributes no properties). -/
def sessionUserObj (session : Obj) : Obj :=
  match getField session "user" with
  | some (.obj u) => u
  | _ => .nil

/-- `session?.user?.email as string` (source line 68): the email when
present as a string, and absent (`undefined`) otherwise. -/
def sessionEmail (session : Obj) : Option String :=
  match getField (sessionUserObj session) "email" with
  | some (.str e) => some e
  | _ => none

/-- `authOptions.callbacks.session` (source lines 53–124): extract the
email, call `getUser(email)`, and on success return
`{ ...session, user: { ...session.user, ...data?.user } }`; on any store
error, log and return `session` unchanged.  The second component records
the store calls performed. -/
def sessionCallback (store : Store) (session : Obj) : Obj × List StoreCall :=
  let email := sessionEmail session
  match getUser store email with
  | .error _ => (session, [StoreCall.lookup email])
  | .ok data =>
    let newSession :=
      setField session "user"
        (.obj (sessionUserObj session ++ (data.getD .nil)))
    (newSession, [StoreCall.lookup email])

/-- `authOptions.callbacks.signIn` (source lines 125–181): look the user
up by email; when absent, create them from `user.name`, `user.email`,
`user.image`; return `true`, and `false` if any store call threw.  The
result carries the decision, the resulting store state, and the store
calls performed. -/
def signIn (store : Store) (user : ExternalIdentity) :
    Bool × Store × List StoreCall :=
  match getUser store user.email with
  | .error _ => (false, store, [StoreCall.lookup user.email])
  | .ok (some _) => (true, store, [StoreCall.lookup user.email])
  | .ok none =>
    match createUser store user.name user.email user.image with
    | .error _ =>
      (false, store,
       [StoreCall.lookup user.email,
        StoreCall.create user.name user.email user.image])
    | .ok (_, newStore) =>
      (true, newStore,
       [StoreCall.lookup user.email,
        StoreCall.create user.name user.email user.image])

/-! ## Concrete sample data for witnesses and counterexamples -/

/-- A stored profile for `a@x.com`. -/
def profileA : Obj :=
  Obj.ofList [("name", .str "A"), ("email", .str "a@x.com"), ("avatarUrl", .str "img1")]

/-- A store already holding `profileA`. -/
def storeA : Store := { profiles := [profileA], lookupFails := false, createFails := false }

/-- An empty, healthy store. -/
def storeEmpty : Store := { profiles := [], lookupFails := false, createFails := false }

/-- An empty store whose lookup call fails. -/
def storeDown : Store := { profiles := [], lookupFails := true, createFails := false }

/-- An empty store whose create call fails. -/
def storeCreateFail : Store := { profiles := [], lookupFails := false, createFails := true }

/-- A fresh external identity for `a@x.com`. -/
def identA : ExternalIdentity :=
  { name := some "A2", email := some "a@x.com", image := some "img2" }

/-- An external identity with the required email missing. -/
def identNoEmail : ExternalIdentity :=
  { name := some "B", email := none, image := some "img3" }

/-- A provider session for `a@x.com` with one extra top-level field. -/
def sessionA : Obj :=
  Obj.ofList
    [("expires", .str "2026-01-01"),
     ("user", .obj (Obj.ofList [("email", .str "a@x.com"), ("name", .str "G"), ("image", .str "gimg")]))]

/-- A provider session whose `user` object has no email. -/
def sessionNoEmail : Obj :=
  Obj.ofList
    [("expires", .str "2026-01-01"),
     ("user", .obj (Obj.ofList [("name", .str "G")]))]

/-- A sample claims object for the codec. -/
def claimsA : Obj :=
  Obj.ofList
    [("email", .str "a@x.com"),
     ("iss", .str "someone-else"),
     ("exp", .num 1)]

/-- A well-formed payload carrying a foreign issuer claim. -/
def foreignIssPayload : Obj :=
  Obj.ofList [("iss", .str "not-grafbase"), ("exp", .num 99)]

/-! ## Field-lookup lemmas -/

theorem getField_append : (a b : Obj) → (k : String) →
    getField (a ++ b) k =
      match getField b k with
      | some v => some v
      | none => getField a k
  | .nil, b, k => by
    show getField b k = _
    cases getField b k <;> rfl
  | .cons ka va rest, b, k => by
    show (match getField (rest ++ b) k with
          | some v => some v
          | none => if ka = k then some va else none) = _
    rw [getField_append rest b k]
    cases getField b k <;> rfl

theorem getField_setField_same (o : Obj) (k : String) (v : Value) :
    getField (setField o k v) k = some v := by
  rw [setField, getField_append]
  simp [getField]

theorem getField_setField_other (o : Obj) (k kOther : String) (v : Value)
    (h : kOther ≠ k) : getField (setField o k v) kOther = getField o kOther := by
  rw [setField, getField_append]
  have hnone : getField (Obj.cons k v .nil) kOther = none := by
    simp [getField, Ne.symm h]
  rw [hnone]

theorem encodePayload_exp (c : Obj) (now : Int) :
    getField (encodePayload c now) "exp" = some (.num (now + sessionTTL)) := by
  rw [encodePayload]
  exact getField_setField_same _ _ _

theorem encodePayload_iss (c : Obj) (now : Int) :
    getField (encodePayload c now) "iss" = some (.str "grafbase") := by
  rw [encodePayload,
      getField_setField_other _ _ _ _ (by decide : "iss" ≠ "exp")]
  exact getField_setField_same _ _ _

/-! ## Claim theorems -/

/-- C1: Token codec round-trip — for every claims value `c` and secret
`s`, decoding `encode(c, s)` with the same secret (within the TTL)
succeeds and returns claims equal to `c` except that `iss` is the fixed
issuer `"grafbase"` and `exp` is the codec-assigned encode-time `now`
plus the TTL. -/
theorem C1_token_roundtrip (c : Obj) (s : String) (tEnc tDec : Int)
    (h : tDec < tEnc + sessionTTL) :
    decode s (encode s c tEnc) tDec = .ok (encodePayload c tEnc) ∧
    getField (encodePayload c tEnc) "iss" = some (.str "grafbase") ∧
    getField (encodePayload c tEnc) "exp" = some (.num (tEnc + sessionTTL)) ∧
    ∀ k, k ≠ "iss" → k ≠ "exp" →
      getField (encodePayload c tEnc) k = getField c k := by
  refine ⟨?_, encodePayload_iss c tEnc, encodePayload_exp c tEnc, ?_⟩
  · simp [decode, encode, jwtSign, jwtVerify, encodePayload_exp, h]
  · intro k hki hke
    rw [encodePayload, getField_setField_other _ _ _ _ hke,
        getField_setField_other _ _ _ _ hki]

/-- Witness for C1 at a concrete claims object that even carries its own
(overridden) `iss` and `exp` fields. -/
theorem C1_token_roundtrip_witness :
    decode "secretK" (encode "secretK" claimsA 1000) 1000
      = .ok (encodePayload claimsA 1000) ∧
    getField (encodePayload claimsA 1000) "iss" = some (.str "grafbase") ∧
    getField (encodePayload claimsA 1000) "exp" = some (.num 4600) ∧
    getField (encodePayload claimsA 1000) "email" = getField claimsA "email" := by
  have h := C1_token_roundtrip claimsA "secretK" 1000 1000 (by decide)
  exact ⟨h.1, h.2.1, h.2.2.1.trans (by decide),
         h.2.2.2 "email" (by decide) (by decide)⟩

/-- C2: for every claims input to encode — including one that already
carries its own `iss` or `exp` — the payload that gets signed has issuer
`"grafbase"` and expiry `now + 3600`; the codec's values override any
caller-supplied ones. -/
theorem C2_encode_injects_issuer_and_expiry (s : String) (c : Obj) (now : Int) :
    sessionTTL = 3600 ∧
    encode s c now = Token.signed (encodePayload c now) (encodePayload c now, s) ∧
    getField (encodePayload c now) "iss" = some (.str "grafbase") ∧
    getField (encodePayload c now) "exp" = some (.num (now + sessionTTL)) ∧
    ∀ issV expV,
      getField (encodePayload (setField (setField c "iss" issV) "exp" expV) now) "iss"
        = some (.str "grafbase") ∧
      getField (encodePayload (setField (setField c "iss" issV) "exp" expV) now) "exp"
        = some (.num (now + sessionTTL)) :=
  ⟨by decide, rfl, encodePayload_iss c now, encodePayload_exp c now,
   fun issV expV => ⟨encodePayload_iss _ now, encodePayload_exp _ now⟩⟩

/-- C3: decode fails (with the spec's `InvalidToken`) in exactly these
cases for a codec-produced token: signed with a different secret, or
expired at decode time (strict comparison); a structurally malformed
token always fails; in particular a token encoded at `T` fails at
`T + 3601`. -/
theorem C3_decode_failure_cases (c : Obj) (s sOther : String) (tEnc now : Int) :
    (isInvalidToken (decode sOther (encode s c tEnc) now) = true ↔
      (sOther ≠ s ∨ tEnc + sessionTTL ≤ now)) ∧
    (∀ raw, isInvalidToken (decode sOther (Token.malformed raw) now) = true) ∧
    isInvalidToken (decode s (encode s c tEnc) (tEnc + 3601)) = true := by
  have hT : sessionTTL = 3600 := by decide
  refine ⟨?_, fun raw => rfl, ?_⟩
  · by_cases hs : sOther = s
    · subst hs
      by_cases ht : now < tEnc + sessionTTL
      · simp [decode, encode, jwtSign, jwtVerify, encodePayload_exp, ht,
              isInvalidToken]
      · simp [decode, encode, jwtSign, jwtVerify, encodePayload_exp, ht,
              isInvalidToken]
        omega
    · simp [decode, encode, jwtSign, jwtVerify, isInvalidToken,
            Ne.symm hs, hs]
  · have hlt : ¬ (tEnc + 3601 < tEnc + sessionTTL) := by omega
    simp [decode, encode, jwtSign, jwtVerify, encodePayload_exp, hlt,
          isInvalidToken]

/-- C10: decode verifies only the signature and the expiry and performs
no issuer check — any well-formed, unexpired token signed with the given
secret decodes successfully, whatever its `iss` claim says. -/
theorem C10_decode_ignores_issuer (p : Obj) (s : String) (now e : Int)
    (hexp : getField p "exp" = some (.num e)) (hvalid : now < e) :
    decode s (jwtSign p s) now = .ok p := by
  simp [decode, jwtSign, jwtVerify, hexp, hvalid]

/-- Witness for C10 at a payload whose issuer is not `"grafbase"`. -/
theorem C10_decode_ignores_issuer_witness :
    getField foreignIssPayload "iss" = some (.str "not-grafbase") ∧
    decode "secretK" (jwtSign foreignIssPayload "secretK") 0 = .ok foreignIssPayload :=
  ⟨by decide,
   C10_decode_ignores_issuer foreignIssPayload "secretK" 0 99 (by decide) (by decide)⟩

/-- C4: reconciliation on sign-in — when the identity's email already has
a stored profile, `signIn` admits without creating anything and leaves
the whole store unchanged (the stored profile is authoritative); when no
profile exists, exactly one profile is created from the identity's name,
email and avatar reference. -/
theorem C4_reconciliation_on_sign_in (store : Store) (user : ExternalIdentity)
    (e : String) (hemail : user.email = some e)
    (hlk : store.lookupFails = false) :
    (∀ p, lookupByEmail store.profiles e = some p →
      signIn store user = (true, store, [StoreCall.lookup (some e)])) ∧
    (store.createFails = false → lookupByEmail store.profiles e = none →
      signIn store user =
        (true,
         { store with
             profiles := store.profiles ++ [mkProfile user.name (some e) user.image] },
         [StoreCall.lookup (some e),
          StoreCall.create user.name (some e) user.image])) := by
  constructor
  · intro p hp
    simp [signIn, getUser, hemail, hlk, hp]
  · intro hcf habs
    simp [signIn, getUser, createUser, hemail, hlk, hcf, habs]

/-- Witness for C4: a second sign-in for an already-stored email changes
nothing, and a first sign-in on the empty store creates exactly the one
profile built from the identity's attributes. -/
theorem C4_reconciliation_on_sign_in_witness :
    signIn storeA identA = (true, storeA, [StoreCall.lookup (some "a@x.com")]) ∧
    signIn storeEmpty identA =
      (true,
       { storeEmpty with
           profiles := storeEmpty.profiles ++
             [mkProfile identA.name (some "a@x.com") identA.image] },
       [StoreCall.lookup (some "a@x.com"),
        StoreCall.create identA.name (some "a@x.com") identA.image]) :=
  ⟨(C4_reconciliation_on_sign_in storeA identA "a@x.com" rfl rfl).1
      profileA (by decide),
   (C4_reconciliation_on_sign_in storeEmpty identA "a@x.com" rfl rfl).2
      rfl (by decide)⟩

/-- C5: atomicity of provisioning failure — when the email has no stored
profile and the create call fails, `signIn` denies and the store is
unchanged, so no profile for that email exists afterwards. -/
theorem C5_create_failure_is_atomic (store : Store) (user : ExternalIdentity)
    (e : String) (hemail : user.email = some e)
    (hlk : store.lookupFails = false)
    (habs : lookupByEmail store.profiles e = none)
    (hcf : store.createFails = true) :
    signIn store user =
      (false, store,
       [StoreCall.lookup (some e),
        StoreCall.create user.name (some e) user.image]) ∧
    lookupByEmail (signIn store user).2.1.profiles e = none := by
  have h1 : signIn store user =
      (false, store,
       [StoreCall.lookup (some e),
        StoreCall.create user.name (some e) user.image]) := by
    simp [signIn, getUser, createUser, hemail, hlk, habs, hcf]
  exact ⟨h1, by rw [h1]; exact habs⟩

/-- Witness for C5 on a store whose create call fails. -/
theorem C5_create_failure_is_atomic_witness :
    signIn storeCreateFail identA =
      (false, storeCreateFail,
       [StoreCall.lookup (some "a@x.com"),
        StoreCall.create identA.name (some "a@x.com") identA.image]) ∧
    lookupByEmail (signIn storeCreateFail identA).2.1.profiles "a@x.com" = none :=
  C5_create_failure_is_atomic storeCreateFail identA "a@x.com" rfl rfl
    (by decide) rfl

/-- C6: graceful degradation of materialization — when the store lookup
fails, the session callback returns the input provider session itself
(and, being a total function, propagates no error). -/
theorem C6_materialization_degrades_gracefully (store : Store) (session : Obj)
    (h : store.lookupFails = true) :
    sessionCallback store session =
      (session, [StoreCall.lookup (sessionEmail session)]) := by
  simp [sessionCallback, getUser, h]

/-- Witness for C6 on a store whose lookup call fails. -/
theorem C6_materialization_degrades_gracefully_witness :
    sessionCallback storeDown sessionA =
      (sessionA, [StoreCall.lookup (some "a@x.com")]) :=
  (C6_materialization_degrades_gracefully storeDown sessionA rfl).trans (by decide)

/-- C7: merge shape and precedence — on a successful lookup the returned
session has its `user` replaced by the union of the provider's user
fields and the profile's fields, the profile winning on every colliding
key, and every other top-level field is unchanged. -/
theorem C7_merge_shape_and_precedence (store : Store) (session u p : Obj)
    (e : String) (hlk : store.lookupFails = false)
    (hu : getField session "user" = some (.obj u))
    (he : getField u "email" = some (.str e))
    (hp : lookupByEmail store.profiles e = some p) :
    getField (sessionCallback store session).1 "user" = some (.obj (u ++ p)) ∧
    (∀ k, getField (u ++ p) k =
      match getField p k with
      | some v => some v
      | none => getField u k) ∧
    (∀ k, k ≠ "user" →
      getField (sessionCallback store session).1 k = getField session k) := by
  have huo : sessionUserObj session = u := by
    simp [sessionUserObj, hu]
  have hem : sessionEmail session = some e := by
    simp [sessionEmail, huo, he]
  have hrun : (sessionCallback store session).1 =
      setField session "user" (.obj (u ++ p)) := by
    simp [sessionCallback, hem, getUser, hlk, hp, huo]
  refine ⟨?_, fun k => getField_append u p k, ?_⟩
  · rw [hrun]
    exact getField_setField_same _ _ _
  · intro k hk
    rw [hrun]
    exact getField_setField_other _ _ _ _ hk

/-- Witness for C7: the merged user keeps the profile's `name` over the
provider's colliding one, keeps the provider-only `image`, and the
top-level `expires` field is untouched. -/
theorem C7_merge_shape_and_precedence_witness :
    getField (sessionCallback storeA sessionA).1 "user"
      = some (.obj (sessionUserObj sessionA ++ profileA)) ∧
    getField (sessionUserObj sessionA ++ profileA) "name" = some (.str "A") ∧
    getField (sessionUserObj sessionA ++ profileA) "image" = some (.str "gimg") ∧
    getField (sessionCallback storeA sessionA).1 "expires"
      = getField sessionA "expires" := by
  have h := C7_merge_shape_and_precedence storeA sessionA
    (sessionUserObj sessionA) profileA "a@x.com" rfl (by decide) (by decide)
    (by decide)
  exact ⟨h.1, by decide, by decide, h.2.2 "expires" (by decide)⟩

/-- C8: the sign-in gate converts a missing required email and any
failing store call into a deny decision; the embedded `signIn` is a
total function into `Bool`, so no exception reaches the hosting
framework. -/
theorem C8_gate_catches_errors (store : Store) (user : ExternalIdentity) :
    (user.email = none → (signIn store user).1 = false) ∧
    (store.lookupFails = true → (signIn store user).1 = false) ∧
    (∀ e, user.email = some e → store.createFails = true →
      lookupByEmail store.profiles e = none → (signIn store user).1 = false) := by
  refine ⟨?_, ?_, ?_⟩
  · intro h
    cases hlk : store.lookupFails <;>
      simp [signIn, getUser, h, hlk]
  · intro h
    simp [signIn, getUser, h]
  · intro e hemail hcf habs
    cases hlk : store.lookupFails <;>
      simp [signIn, getUser, createUser, hemail, hcf, habs, hlk]

/-- Witness for C8: a missing email, a failing lookup, and a failing
create each yield a deny. -/
theorem C8_gate_catches_errors_witness :
    (signIn storeEmpty identNoEmail).1 = false ∧
    (signIn storeDown identA).1 = false ∧
    (signIn storeCreateFail identA).1 = false :=
  ⟨(C8_gate_catches_errors storeEmpty identNoEmail).1 rfl,
   (C8_gate_catches_errors storeDown identA).2.1 rfl,
   (C8_gate_catches_errors storeCreateFail identA).2.2 "a@x.com" rfl rfl
     (by decide)⟩

/-- C9 counterexample: the claim says the session callback attempts no
merge and performs no store lookup when `user.email` is absent, but the
source (line 68–72) extracts the email and calls `getUser(email)`
unconditionally — on a healthy store and an email-less session the
call log contains the lookup. -/
theorem C9_counterexample_lookup_is_performed :
    sessionEmail sessionNoEmail = none ∧
    (sessionCallback storeEmpty sessionNoEmail).2 = [StoreCall.lookup none] ∧
    (sessionCallback storeEmpty sessionNoEmail).2 ≠ [] :=
  ⟨by decide, by decide, by decide⟩

/-- C9 (amended): when `user.email` is absent the session callback still
returns the provider session unmodified, but it does perform the store
lookup with the absent email; the merge is abandoned because that lookup
fails. -/
theorem C9_missing_email_returns_session (store : Store) (session : Obj)
    (h : sessionEmail session = none) :
    (sessionCallback store session).1 = session ∧
    (sessionCallback store session).2 = [StoreCall.lookup none] := by
  cases hlk : store.lookupFails <;>
    simp [sessionCallback, getUser, h, hlk]

/-- Witness for the amended C9 on a session whose `user` has no email. -/
theorem C9_missing_email_returns_session_witness :
    (sessionCallback storeEmpty sessionNoEmail).1 = sessionNoEmail ∧
    (sessionCallback storeEmpty sessionNoEmail).2 = [StoreCall.lookup none] :=
  C9_missing_email_returns_session storeEmpty sessionNoEmail (by decide)

end Knext
